import Mathlib

/-!
Verification of the geo-loc repository (divanvisagie/geo-loc).

Shallow embedding of:
- `src/providers/corelocation.rs`: the CoreLocation bridge
  (`DelegateState::send`, the delegate callbacks `update` / `fail`,
  and `get_current_location`);
- `src/location.rs`: the `Location` record;
- `src/main.rs`: the orchestrator `get_location` (GeoClue first, IP fallback).

Modelling conventions:
- `f64` coordinate and timestamp values are modelled as `ℚ` (every finite
  double is a rational; the claims under study involve only exact values).
- The horizontal-accuracy `f64` is modelled as `F64`, a sign-magnitude pair,
  because the source applies `f64::is_sign_positive`, which reads the IEEE
  sign bit and therefore distinguishes `-0.0` from `0.0`.
- `chrono::DateTime<Utc>` instants are modelled as exact rational seconds
  since the Unix epoch.
- Foreign-call effects (allocations, delegate registration, start/stop of
  the update stream) are recorded as an event trace.
-/

/-- Sign-magnitude model of an IEEE-754 double, sufficient for values on
which the source calls `is_sign_positive`: `negSign` is the sign bit,
`mag` the magnitude (a non-negative rational for well-formed values). -/
structure F64 where
  negSign : Bool
  mag : ℚ
deriving DecidableEq, Repr

/-- Numeric value denoted by an `F64`; `⟨true, 0⟩` (negative zero) and
`⟨false, 0⟩` (positive zero) both denote `0`. -/
def F64.toVal (x : F64) : ℚ :=
  if x.negSign then -x.mag else x.mag

/-- Model of Rust `f64::is_sign_positive`: true exactly when the sign bit
is clear, so `is_sign_positive (-0.0) = false` although `-0.0 = 0`. -/
def F64.is_sign_positive (x : F64) : Bool :=
  !x.negSign

/-- `CoreLocationError` from `src/providers/corelocation.rs` lines 16-21.
Note the variants are exactly these three: the type has no
`ServiceDisabled` variant. -/
inductive CoreLocationError where
  | AuthorizationDenied : CoreLocationError
  | Timeout : CoreLocationError
  | Failed : String → CoreLocationError
deriving DecidableEq, Repr

/-- Error kinds named by the specification's error taxonomy (§7).
Used only to compare the source's error type against the spec's kinds. -/
inductive SpecErrKind where
  | serviceDisabled : SpecErrKind
  | authorizationDenied : SpecErrKind
  | timeoutKind : SpecErrKind
  | failedKind : SpecErrKind
deriving DecidableEq, Repr

/-- Classification of each `CoreLocationError` value into the spec's
taxonomy: `Failed _` is the spec's `Failed(description)` kind. No value of
the source type is of the spec's `ServiceDisabled` kind. -/
def specKindOf : CoreLocationError → SpecErrKind
  | .AuthorizationDenied => .authorizationDenied
  | .Timeout => .timeoutKind
  | .Failed _ => .failedKind

/-- The raw fix structure (named `Fix` in the source; renamed here because Lean already reserves that name) captured by the delegate callback, `corelocation.rs`
lines 37-42: coordinate, horizontal accuracy, and the native timestamp
(`timeIntervalSince1970`, fractional seconds since the Unix epoch). -/
structure CLFix where
  latitude : ℚ
  longitude : ℚ
  accuracy : F64
  timestamp : ℚ
deriving DecidableEq, Repr

/-- `Location` from `src/location.rs`: the normalized record returned to
callers. `timestamp` is the `DateTime<Utc>` instant, modelled as rational
seconds since the Unix epoch. -/
structure Location where
  latitude : ℚ
  longitude : ℚ
  accuracy_m : Option F64
  provider : String
  timestamp : ℚ
deriving DecidableEq, Repr

/-- State of the pending-request slot together with the receiving end of
the oneshot channel. `tx` models `Mutex<Option<oneshot::Sender>>` holding
the sender (`true` = sender still present); `channel` models the value, if
any, that has been delivered to the awaiting receiver. -/
structure DelegateState (α : Type) where
  tx : Bool
  channel : Option α
deriving DecidableEq, Repr

/-- Freshly created slot, `DelegateState::new`: sender present, nothing
delivered yet. -/
def DelegateState.init (α : Type) : DelegateState α :=
  { tx := true, channel := none }

/-- `DelegateState::send`, `corelocation.rs` lines 55-59: take the sender
out of the mutex-guarded `Option`; if it was still there, send the value,
otherwise do nothing. -/
def DelegateState.send {α : Type} (st : DelegateState α) (v : α) : DelegateState α :=
  if st.tx then { tx := false, channel := some v } else st

/-- Outcome value carried by the oneshot channel, as in the source:
`Result<CLFix, CoreLocationError>`. -/
abbrev SlotVal := Except CoreLocationError CLFix

/-- A delegate callback invocation, one of the two shapes registered on
the delegate class: `locationManager:didUpdateLocations:` carrying the
list of recent fixes, or `locationManager:didFailWithError:` carrying the
(possibly null) error description. -/
inductive Callback where
  | locationsUpdated : List CLFix → Callback
  | updateFailed : Option String → Callback
deriving DecidableEq, Repr

/-- The `update` callback, `corelocation.rs` lines 97-124. If the state
ivar is present: an empty locations list (or a null `lastObject`) returns
early, before the `stopUpdatingLocation` call; otherwise the most recent
(last) fix is sent. The `stopUpdatingLocation` at line 123 runs whenever
the early returns are not taken. Returns the new slot state and whether
this invocation issued a stop-updates instruction. -/
def update (st : DelegateState SlotVal) (statePresent : Bool)
    (locations : List CLFix) : DelegateState SlotVal × Bool :=
  if statePresent then
    match locations.getLast? with
    | none => (st, false)
    | some l => (st.send (.ok l), true)
  else
    (st, true)

/-- The `fail` callback, `corelocation.rs` lines 126-138: send
`Err(Failed(reason))` where `reason` is the error description, or
`"unknown"` when the description string is null; then stop updates. -/
def fail (st : DelegateState SlotVal) (statePresent : Bool)
    (desc : Option String) : DelegateState SlotVal × Bool :=
  if statePresent then
    (st.send (.error (.Failed (desc.getD "unknown"))), true)
  else
    (st, true)

/-- Dispatch a callback of either shape to its handler. -/
def runCallback (st : DelegateState SlotVal) (statePresent : Bool) :
    Callback → DelegateState SlotVal × Bool
  | .locationsUpdated locs => update st statePresent locs
  | .updateFailed desc => fail st statePresent desc

/-- Deliver a sequence of values to the slot, in order (models any
interleaving of success and failure callbacks hitting `send`). -/
def deliverAll (vs : List SlotVal) : DelegateState SlotVal :=
  vs.foldl DelegateState.send (DelegateState.init SlotVal)

/-- Floor of a rational as an integer, `q.num / q.den` (matching
`Rat.floor_def`); models `f64::floor` on exactly-represented values. -/
def ratFloor (q : ℚ) : ℤ :=
  q.num / (q.den : ℤ)

/-- Truncation toward zero, modelling Rust's `as i64` cast of an exactly
represented non-integral value. -/
def ratTrunc (q : ℚ) : ℤ :=
  if 0 ≤ q then ratFloor q else -ratFloor (-q)

/-- Days since 1970-01-01 of a proleptic-Gregorian civil date (standard
era-based civil-calendar algorithm); used to pin down concrete UTC
instants and chrono's representable range. -/
def daysFromCivil (y m d : ℤ) : ℤ :=
  let yAdj := y - (if m ≤ 2 then 1 else 0)
  let era := Int.ediv yAdj 400
  let yoe := yAdj - era * 400
  let mp := Int.emod (m + 9) 12
  let doy := Int.ediv (153 * mp + 2) 5 + d - 1
  let doe := yoe * 365 + Int.ediv yoe 4 - Int.ediv yoe 100 + doy
  era * 146097 + doe - 719468

/-- Epoch seconds of a civil UTC date-time. -/
def civilSecs (y m d hh mi ss : ℤ) : ℤ :=
  daysFromCivil y m d * 86400 + hh * 3600 + mi * 60 + ss

/-- Largest epoch second representable by `chrono::DateTime<Utc>`
(year 262143, chrono's maximal year, ends 262143-12-31T23:59:59). -/
def chronoMaxSecs : ℤ :=
  civilSecs 262143 12 31 23 59 59

/-- Smallest epoch second representable by `chrono::DateTime<Utc>`
(chrono's minimal date is -262144-01-01). -/
def chronoMinSecs : ℤ :=
  civilSecs (-262144) 1 1 0 0 0

/-- Model of `Utc.timestamp_opt(secs, nsecs).single()`: a single UTC
instant (as rational epoch seconds) when `secs` is within chrono's
representable range and `nsecs` is a valid (possibly leap-second)
nanosecond count, `None` otherwise. For `Utc` the ambiguous case never
arises, so validity yields exactly one instant. -/
def timestampOpt (secs nanos : ℤ) : Option ℚ :=
  if chronoMinSecs ≤ secs ∧ secs ≤ chronoMaxSecs ∧ 0 ≤ nanos ∧ nanos < 2000000000
  then some ((secs : ℚ) + (nanos : ℚ) / 1000000000)
  else none

/-- The seconds/nanoseconds split in `get_current_location`,
`corelocation.rs` lines 208-214: `secs = timestamp.floor()`,
`nanos = ((timestamp - secs) * 1e9) as i64`, then the negative-nanos
adjustment. -/
def convertTimestamp (t : ℚ) : ℤ × ℤ :=
  let secs := ratFloor t
  let nanos := ratTrunc ((t - (secs : ℚ)) * 1000000000)
  if nanos < 0 then (secs - 1, nanos + 1000000000) else (secs, nanos)

/-- The fix-to-`Location` normalization in `get_current_location`,
`corelocation.rs` lines 207-230: split the native timestamp, build the
UTC instant (`nanos as u32` is a wrapping cast, modelled by `emod 2^32`),
substituting `now` (`Utc::now()`) when no single instant exists; keep the
accuracy only when `is_sign_positive`. -/
def fixToLocation (f : CLFix) (now : ℚ) : Location :=
  let p := convertTimestamp f.timestamp
  let ts := (timestampOpt p.1 (Int.emod p.2 4294967296)).getD now
  let acc := if f.accuracy.is_sign_positive then some f.accuracy else none
  { latitude := f.latitude, longitude := f.longitude, accuracy_m := acc,
    provider := "corelocation", timestamp := ts }

/-- Foreign-call effects of one bridge request, in program order. -/
inductive Ev where
  | allocManager : Ev
  | allocDelegate : Ev
  | setDelegate : Ev
  | requestAuth : Ev
  | startUpdating : Ev
  | deadlineExpired : Ev
  | stopUpdating : Ev
deriving DecidableEq, Repr

/-- What `tokio::time::timeout(timeout, rx).await` resolves to:
a fix sent by the success callback, an error sent by the failure
callback, a closed channel, or deadline expiry. -/
inductive Await where
  | fixArrived : CLFix → Await
  | failureArrived : CoreLocationError → Await
  | channelClosed : Await
  | deadline : Await
deriving DecidableEq, Repr

/-- Environment of one bridge request: what the platform answers to each
foreign query made by `get_current_location`. -/
structure BridgeEnv where
  servicesEnabled : Bool
  authStatus : ℤ
  managerAllocOk : Bool
  delegateAllocOk : Bool
  awaited : Await
  now : ℚ
deriving DecidableEq, Repr

/-- `get_current_location`, `corelocation.rs` lines 150-242, as a function
of the platform environment, returning the result together with the trace
of foreign-call effects (the `verbose` eprintln diagnostics are omitted;
they touch no native state). Checks run in source order: services-enabled,
authorization status (2 = denied, 1 = restricted), manager allocation,
delegate allocation; then the delegate is registered, authorization
requested, updates started, and the oneshot awaited under the deadline. -/
def get_current_location (timeout : ℚ) (env : BridgeEnv) :
    Except CoreLocationError Location × List Ev :=
  let _effTimeout : ℚ := if timeout = 0 then 5 else timeout
  if !env.servicesEnabled then
    (.error (.Failed "Location services disabled"), [])
  else if env.authStatus = 2 ∨ env.authStatus = 1 then
    (.error .AuthorizationDenied, [])
  else if !env.managerAllocOk then
    (.error (.Failed "Failed to create CLLocationManager"), [.allocManager])
  else if !env.delegateAllocOk then
    (.error (.Failed "Failed to allocate delegate"), [.allocManager, .allocDelegate])
  else
    let pre : List Ev := [.allocManager, .allocDelegate, .setDelegate,
      .requestAuth, .startUpdating]
    match env.awaited with
    | .fixArrived f => (.ok (fixToLocation f env.now), pre)
    | .failureArrived e => (.error e, pre)
    | .channelClosed => (.error (.Failed "CoreLocation channel closed"), pre)
    | .deadline => (.error .Timeout, pre ++ [.deadlineExpired, .stopUpdating])

/-- The error type of `src/main.rs` lines 142-176: a message and a
process exit code. -/
structure MainError where
  message : String
  code : ℤ
deriving DecidableEq, Repr

/-- `Error::permission_denied`, `main.rs` lines 149-154: the remediation
message (how to enable location services) with exit code 77. -/
def MainError.permission_denied : MainError :=
  { message := "permission denied - location services disabled\n\nTo enable location access:\n1. Open GNOME Settings (gnome-control-center)\n2. Go to Privacy & Security → Location Services\n3. Enable Location Services\n4. Ensure geo-loc.desktop is installed in /usr/share/applications/\n\nAlternatively, falling back to IP-based location...",
    code := 77 }

/-- `Error::service_unavailable`, `main.rs` lines 156-161. -/
def MainError.service_unavailable : MainError :=
  { message := "location service unavailable - install geoclue-2.0 package",
    code := 70 }

/-- `Error::timeout`, `main.rs` lines 163-168. -/
def MainError.timedOut : MainError :=
  { message := "timeout waiting for location", code := 1 }

/-- `Error::network`, `main.rs` lines 170-175. -/
def MainError.network : MainError :=
  { message := "network error - check internet connection", code := 1 }

/-- Observable actions of one `get_location` invocation, in program
order: a line written to stderr, or a call of the IP fallback provider. -/
inductive OEvent where
  | stderrLine : String → OEvent
  | ipCall : OEvent
deriving DecidableEq, Repr

/-- Environment of one orchestrator invocation: the outcome of the
GeoClue attempt (`try_geoclue`) and of the IP fallback
(`try_ip_location`), each a coordinate pair or an error. -/
structure OrchestraEnv where
  geoclue : Except MainError (ℚ × ℚ)
  ip : Except MainError (ℚ × ℚ)

/-- `get_location`, `main.rs` lines 20-33: try GeoClue first; on any
error, print the error message plus a falling-back notice when the code
is 77 (permission denied), then invoke the IP fallback and return its
result. The function takes no provider selection; `args.rs` declares a
`Provider` enum but `main.rs` declares no modules, so no provider choice
ever reaches this code. -/
def get_location (env : OrchestraEnv) : Except MainError (ℚ × ℚ) × List OEvent :=
  match env.geoclue with
  | .ok coords => (.ok coords, [])
  | .error e =>
      let msgs : List OEvent :=
        if e.code = 77 then
          [.stderrLine ("geo-loc: " ++ e.message),
           .stderrLine "geo-loc: falling back to IP-based location..."]
        else []
      (env.ip, msgs ++ [.ipCall])

theorem foldl_send_consumed {α : Type} (vs : List α) (st : DelegateState α)
    (h : st.tx = false) : vs.foldl DelegateState.send st = st := by
  induction vs with
  | nil => rfl
  | cons v vs ih =>
    have hsend : st.send v = st := by simp [DelegateState.send, h]
    rw [List.foldl_cons, hsend]
    exact ih

theorem ratFloor_eq_floor (q : ℚ) : ratFloor q = ⌊q⌋ :=
  (Rat.floor_def).symm

theorem ratFloor_intCast_div (n : ℤ) :
    ratFloor ((n : ℚ) / 1000000000) = Int.ediv n 1000000000 := by
  rw [ratFloor_eq_floor]
  have h9 : ((1000000000 : ℚ)) = ((1000000000 : ℕ) : ℚ) := by norm_num
  rw [h9, Rat.floor_intCast_div_natCast]
  rfl

theorem convertTimestamp_div_pow9 (n : ℤ) :
    convertTimestamp ((n : ℚ) / 1000000000)
      = (Int.ediv n 1000000000, Int.emod n 1000000000) := by
  have hsum : 1000000000 * Int.ediv n 1000000000 + Int.emod n 1000000000 = n :=
    Int.ediv_add_emod n 1000000000
  have hcast : (n : ℚ) = 1000000000 * ((Int.ediv n 1000000000 : ℤ) : ℚ)
      + ((Int.emod n 1000000000 : ℤ) : ℚ) := by
    exact_mod_cast (congrArg (Int.cast : ℤ → ℚ) hsum).symm
  have hr0 : (0 : ℤ) ≤ Int.emod n 1000000000 := Int.emod_nonneg n (by norm_num)
  have hfrac : (((n : ℚ) / 1000000000) - ((Int.ediv n 1000000000 : ℤ) : ℚ)) * 1000000000
      = ((Int.emod n 1000000000 : ℤ) : ℚ) := by
    field_simp [hcast]
  have htr : ratTrunc ((((n : ℚ) / 1000000000) - ((Int.ediv n 1000000000 : ℤ) : ℚ)) * 1000000000)
      = Int.emod n 1000000000 := by
    rw [hfrac, ratTrunc, if_pos (show (0 : ℚ) ≤ ((Int.emod n 1000000000 : ℤ) : ℚ) by
      exact_mod_cast hr0)]
    rw [ratFloor_eq_floor]
    exact Int.floor_intCast _
  simp only [convertTimestamp, ratFloor_intCast_div, htr, if_neg (by omega : ¬ Int.emod n 1000000000 < 0)]

theorem fixToLocation_timestamp_exact (n : ℤ)
    (hlo : chronoMinSecs ≤ Int.ediv n 1000000000)
    (hhi : Int.ediv n 1000000000 ≤ chronoMaxSecs)
    (lat lon : ℚ) (acc : F64) (now : ℚ) :
    (fixToLocation ⟨lat, lon, acc, (n : ℚ) / 1000000000⟩ now).timestamp
      = (n : ℚ) / 1000000000 := by
  have hr0 : (0 : ℤ) ≤ Int.emod n 1000000000 := Int.emod_nonneg n (by norm_num)
  have hrlt : Int.emod n 1000000000 < 1000000000 := Int.emod_lt_of_pos n (by norm_num)
  have hmod : Int.emod (Int.emod n 1000000000) 4294967296 = Int.emod n 1000000000 :=
    Int.emod_eq_of_lt hr0 (by omega)
  have hval : timestampOpt (Int.ediv n 1000000000) (Int.emod n 1000000000)
      = some ((n : ℚ) / 1000000000) := by
    rw [timestampOpt, if_pos ⟨hlo, hhi, hr0, by omega⟩]
    have hsum : 1000000000 * Int.ediv n 1000000000 + Int.emod n 1000000000 = n :=
      Int.ediv_add_emod n 1000000000
    have hcast : (n : ℚ) = 1000000000 * ((Int.ediv n 1000000000 : ℤ) : ℚ)
        + ((Int.emod n 1000000000 : ℤ) : ℚ) := by
      exact_mod_cast (congrArg (Int.cast : ℤ → ℚ) hsum).symm
    congr 1
    rw [hcast]
    ring
  simp only [fixToLocation, convertTimestamp_div_pow9, hmod, hval, Option.getD_some]

/-- Claim C1: for every bridge request, at most one write ever reaches the
pending-request slot. For any non-empty sequence of delivery attempts by
the success and failure callbacks, in any order and any number, the
awaiting caller observes exactly the first attempted outcome (never both,
never neither), the sender is consumed, and every `send` on a consumed
slot is a no-op. -/
theorem slot_exactly_once (vs : List SlotVal) (h : vs ≠ []) :
    (deliverAll vs).channel = vs.head? ∧
    (deliverAll vs).tx = false ∧
    ∀ (st : DelegateState SlotVal) (v : SlotVal), st.tx = false → st.send v = st := by
  obtain ⟨v, vs', rfl⟩ := List.exists_cons_of_ne_nil h
  have hfirst : (DelegateState.init SlotVal).send v
      = { tx := false, channel := some v } := rfl
  have hrest : vs'.foldl DelegateState.send ({ tx := false, channel := some v })
      = { tx := false, channel := some v } :=
    foldl_send_consumed vs' _ rfl
  refine ⟨?_, ?_, ?_⟩
  · show (vs'.foldl DelegateState.send ((DelegateState.init SlotVal).send v)).channel = _
    rw [hfirst, hrest]
    rfl
  · show (vs'.foldl DelegateState.send ((DelegateState.init SlotVal).send v)).tx = false
    rw [hfirst, hrest]
  · intro st w hst
    simp [DelegateState.send, hst]

/-- Witness for C1 at a concrete race: a success write followed by a
failure write; the caller observes the first. -/
theorem slot_exactly_once_witness :
    (deliverAll [.ok ⟨1, 2, ⟨false, 3⟩, 4⟩, .error .Timeout]).channel
      = ([.ok ⟨1, 2, ⟨false, 3⟩, 4⟩, .error .Timeout] : List SlotVal).head? :=
  (slot_exactly_once [.ok ⟨1, 2, ⟨false, 3⟩, 4⟩, .error .Timeout]
    (List.cons_ne_nil _ _)).1

/-- Claim C2 counterexample: with location services disabled, the bridge
returns `CoreLocationError::Failed("Location services disabled")` — an
error of the spec taxonomy's `Failed` kind, not of its `ServiceDisabled`
kind (the source error type has no such variant) — though indeed with an
empty effect trace. -/
theorem service_disabled_returns_failed_kind_cex :
    (get_current_location 5 ⟨false, 0, true, true, .deadline, 0⟩).1
      = .error (.Failed "Location services disabled") ∧
    specKindOf (.Failed "Location services disabled") = .failedKind ∧
    SpecErrKind.failedKind ≠ SpecErrKind.serviceDisabled :=
  ⟨rfl, rfl, by decide⟩

/-- Claim C2 as amended: when the platform reports services disabled, the
bridge fails immediately with `Failed("Location services disabled")` and
an empty effect trace — no manager or delegate allocation, no delegate
registration, no update stream. -/
theorem service_disabled_no_native_objects (timeout : ℚ) (env : BridgeEnv)
    (h : env.servicesEnabled = false) :
    get_current_location timeout env
      = (.error (.Failed "Location services disabled"), []) := by
  simp [get_current_location, h]

/-- Witness for C2's amended theorem at a concrete environment. -/
theorem service_disabled_no_native_objects_witness :
    get_current_location 7 ⟨false, 0, true, true, .deadline, 0⟩
      = (.error (.Failed "Location services disabled"), []) :=
  service_disabled_no_native_objects 7 ⟨false, 0, true, true, .deadline, 0⟩ rfl

/-- Claim C3 counterexample: `get_location` consults no requested
provider; when the native (GeoClue) attempt fails with the timeout error,
the IP fallback is invoked (once) and its result returned, so the bridge
error is not terminal and the fallback call count is not zero. -/
theorem explicit_timeout_fallback_cex :
    get_location ⟨.error MainError.timedOut, .ok (37, -122)⟩
      = (.ok (37, -122), [.ipCall]) ∧
    ¬ ((get_location ⟨.error MainError.timedOut, .ok (37, -122)⟩).1
          = .error MainError.timedOut ∧
       (get_location ⟨.error MainError.timedOut, .ok (37, -122)⟩).2.count .ipCall = 0) := by
  refine ⟨rfl, ?_⟩
  rintro ⟨h1, -⟩
  exact Except.noConfusion h1

/-- Claim C3 as amended: the orchestrator has no provider-selection
input (the `Provider` enum of `args.rs` is dead code, never consulted),
and no bridge error is terminal: on any native-provider error the IP
fallback is invoked exactly once, as the last action, and its result is
returned. -/
theorem native_error_always_falls_back (e : MainError)
    (ip : Except MainError (ℚ × ℚ)) :
    (get_location ⟨.error e, ip⟩).1 = ip ∧
    (get_location ⟨.error e, ip⟩).2.count .ipCall = 1 ∧
    (get_location ⟨.error e, ip⟩).2.getLast? = some .ipCall := by
  refine ⟨rfl, ?_, ?_⟩ <;>
    by_cases h : e.code = 77 <;>
      simp [get_location, h, List.count_cons]

/-- Claim C4: when the native provider fails with the permission-denied
error (code 77, produced for the denied-authorization condition), the
orchestrator emits the remediation message and a falling-back notice to
stderr, then invokes the IP fallback exactly once, and when the fallback
succeeds the final result is exactly the fallback's fix. Note
`get_location` consults no requested provider, so this holds for every
invocation — in particular the default (`Automatic`) one named by the
claim. -/
theorem auth_denied_remediation_then_fallback (f : ℚ × ℚ) :
    get_location ⟨.error MainError.permission_denied, .ok f⟩
      = (.ok f,
         [.stderrLine ("geo-loc: " ++ MainError.permission_denied.message),
          .stderrLine "geo-loc: falling back to IP-based location...",
          .ipCall]) :=
  rfl

/-- Claim C5: when all preconditions pass and no callback fires within
the deadline, the bridge returns `Timeout`, and the trace ends with
deadline expiry immediately followed by exactly one stop-updates
instruction — so the stop is issued after expiry and before the call
returns. -/
theorem timeout_stops_updates_once (timeout : ℚ) (env : BridgeEnv)
    (hs : env.servicesEnabled = true)
    (ha : ¬ (env.authStatus = 2 ∨ env.authStatus = 1))
    (hm : env.managerAllocOk = true)
    (hd : env.delegateAllocOk = true)
    (hw : env.awaited = .deadline) :
    (get_current_location timeout env).1 = .error .Timeout ∧
    (get_current_location timeout env).2.count .stopUpdating = 1 ∧
    (get_current_location timeout env).2
      = [.allocManager, .allocDelegate, .setDelegate, .requestAuth,
         .startUpdating, .deadlineExpired, .stopUpdating] := by
  refine ⟨?_, ?_, ?_⟩ <;>
    simp [get_current_location, hs, hm, hd, hw, if_neg ha, List.count_cons]

/-- Witness for C5 at a concrete environment. -/
theorem timeout_stops_updates_once_witness :
    (get_current_location 5 ⟨true, 0, true, true, .deadline, 0⟩).1
      = .error .Timeout ∧
    (get_current_location 5 ⟨true, 0, true, true, .deadline, 0⟩).2.count .stopUpdating = 1 ∧
    (get_current_location 5 ⟨true, 0, true, true, .deadline, 0⟩).2
      = [.allocManager, .allocDelegate, .setDelegate, .requestAuth,
         .startUpdating, .deadlineExpired, .stopUpdating] :=
  timeout_stops_updates_once 5 ⟨true, 0, true, true, .deadline, 0⟩
    rfl (by decide) rfl rfl rfl

/-- Claim C6 counterexample: the very first callback can be of the
locations-updated shape with an empty list; then the delegate neither
writes to the slot nor instructs the manager to stop (the early return at
`corelocation.rs` line 106 precedes the stop at line 123). -/
theorem empty_update_no_write_no_stop_cex :
    (runCallback (DelegateState.init SlotVal) true (.locationsUpdated [])).1.channel
      = none ∧
    (runCallback (DelegateState.init SlotVal) true (.locationsUpdated [])).2 = false :=
  ⟨rfl, rfl⟩

/-- Claim C6 as amended: for the first callback of either shape — where a
locations-updated callback carries a non-empty list — the delegate writes
the result into the slot (for locations-updated, the most recent, i.e.
last, fix of the list) and instructs the manager to stop producing
updates. -/
theorem first_callback_writes_and_stops (cb : Callback)
    (h : ∀ locs, cb = .locationsUpdated locs → locs ≠ []) :
    ((runCallback (DelegateState.init SlotVal) true cb).1.channel
      = match cb with
        | .locationsUpdated locs => locs.getLast?.map Except.ok
        | .updateFailed desc => some (.error (.Failed (desc.getD "unknown")))) ∧
    (runCallback (DelegateState.init SlotVal) true cb).2 = true := by
  cases cb with
  | locationsUpdated locs =>
    have hne : locs ≠ [] := h locs rfl
    obtain ⟨l, hl⟩ : ∃ l, locs.getLast? = some l := by
      cases hq : locs.getLast? with
      | none =>
        cases locs with
        | nil => exact absurd rfl hne
        | cons a as => simp [List.getLast?] at hq
      | some l => exact ⟨l, rfl⟩
    constructor <;>
      simp [runCallback, update, hl, DelegateState.send, DelegateState.init]
  | updateFailed desc =>
    constructor <;>
      simp [runCallback, fail, DelegateState.send, DelegateState.init]

/-- Witness for C6's amended theorem: a first locations-updated callback
carrying one fix writes that fix and stops. -/
theorem first_callback_writes_and_stops_witness :
    ((runCallback (DelegateState.init SlotVal) true
        (.locationsUpdated [⟨1, 2, ⟨false, 3⟩, 4⟩])).1.channel
      = ([⟨1, 2, ⟨false, 3⟩, 4⟩] : List CLFix).getLast?.map Except.ok) ∧
    (runCallback (DelegateState.init SlotVal) true
        (.locationsUpdated [⟨1, 2, ⟨false, 3⟩, 4⟩])).2 = true :=
  first_callback_writes_and_stops (.locationsUpdated [⟨1, 2, ⟨false, 3⟩, 4⟩])
    (fun locs hcb => by cases hcb; exact List.cons_ne_nil _ _)

/-- Claim C7 counterexample: a reported horizontal accuracy of negative
zero is numerically non-negative (it equals `0`), yet the returned
`Location` carries `accuracy_m = none`, because the source tests
`is_sign_positive`, i.e. the IEEE sign bit, not the numeric order. -/
theorem negative_zero_accuracy_cex :
    F64.toVal ⟨true, 0⟩ = 0 ∧
    (0 : ℚ) ≤ F64.toVal ⟨true, 0⟩ ∧
    (fixToLocation ⟨1, 2, ⟨true, 0⟩, 0⟩ 0).accuracy_m = none := by
  refine ⟨?_, ?_, rfl⟩ <;> simp [F64.toVal]

/-- Claim C7 as amended: `accuracy_m` is `Some` of the reported accuracy
exactly when the accuracy's IEEE sign bit is positive (so `-0.0`,
sign-negative yet numerically non-negative, yields `None`); in particular
a reported accuracy of `-1` yields `None` and `12.34` yields
`Some(12.34)`. -/
theorem accuracy_some_iff_sign_positive (f : CLFix) (now : ℚ) :
    ((fixToLocation f now).accuracy_m = some f.accuracy
        ↔ f.accuracy.is_sign_positive = true) ∧
    ((fixToLocation f now).accuracy_m = none
        ↔ f.accuracy.is_sign_positive = false) ∧
    (fixToLocation ⟨0, 0, ⟨true, 1⟩, 0⟩ 0).accuracy_m = none ∧
    (fixToLocation ⟨0, 0, ⟨false, 1234/100⟩, 0⟩ 0).accuracy_m
      = some ⟨false, 1234/100⟩ := by
  refine ⟨?_, ?_, rfl, rfl⟩ <;>
    rcases f with ⟨lat, lon, ⟨sgn, mag⟩, ts⟩ <;>
      cases sgn <;>
        simp [fixToLocation, F64.is_sign_positive]

/-- Claim C9: a native timestamp of `n` nanoseconds since the Unix epoch
(fractional seconds `n / 10^9`), whose second lies in chrono's
representable range, is converted to exactly the UTC instant `n / 10^9`;
in particular `1700000000.5` converts to 2023-11-14T22:13:20.5Z (the
civil date-time 2023-11-14, 22:13:20, plus half a second). -/
theorem timestamp_converts_to_utc_instant (n : ℤ)
    (hlo : chronoMinSecs ≤ Int.ediv n 1000000000)
    (hhi : Int.ediv n 1000000000 ≤ chronoMaxSecs)
    (lat lon : ℚ) (acc : F64) (now : ℚ) :
    ((fixToLocation ⟨lat, lon, acc, (n : ℚ) / 1000000000⟩ now).timestamp
      = (n : ℚ) / 1000000000) ∧
    ((fixToLocation ⟨0, 0, ⟨false, 0⟩, 1700000000 + 1/2⟩ 0).timestamp
      = (civilSecs 2023 11 14 22 13 20 : ℚ) + 1/2) := by
  constructor
  · exact fixToLocation_timestamp_exact n hlo hhi lat lon acc now
  · have h := fixToLocation_timestamp_exact 1700000000500000000
      (by decide) (by decide) 0 0 ⟨false, 0⟩ 0
    have e2 : ((civilSecs 2023 11 14 22 13 20 : ℤ) : ℚ) = 1700000000 := by
      rw [show civilSecs 2023 11 14 22 13 20 = 1700000000 from by decide]
      norm_num
    have e1 : ((1700000000500000000 : ℤ) : ℚ) / 1000000000 = 1700000000 + 1/2 := by
      norm_num
    rw [e2, show ((1700000000 : ℚ) + 1/2) = ((1700000000500000000 : ℤ) : ℚ) / 1000000000
        from e1.symm]
    exact h

/-- Witness for C9 at the claim's own example timestamp. -/
theorem timestamp_converts_to_utc_instant_witness :
    (fixToLocation ⟨0, 0, ⟨false, 0⟩, ((1700000000500000000 : ℤ) : ℚ) / 1000000000⟩
        0).timestamp
      = ((1700000000500000000 : ℤ) : ℚ) / 1000000000 :=
  (timestamp_converts_to_utc_instant 1700000000500000000 (by decide) (by decide)
    0 0 ⟨false, 0⟩ 0).1

/-- Claim C10: whenever the seconds/nanoseconds pair obtained from the
delivered fix's native timestamp does not denote a valid single UTC
instant (`timestamp_opt(..).single()` is `None`), `get_current_location`
still succeeds, and the returned `Location`'s timestamp is silently the
current wall-clock time (`Utc::now()`, the environment's `now`). -/
theorem invalid_instant_substitutes_now (f : CLFix) (timeout : ℚ)
    (env : BridgeEnv)
    (hs : env.servicesEnabled = true)
    (ha : ¬ (env.authStatus = 2 ∨ env.authStatus = 1))
    (hm : env.managerAllocOk = true)
    (hd : env.delegateAllocOk = true)
    (hw : env.awaited = .fixArrived f)
    (h : timestampOpt (convertTimestamp f.timestamp).1
          (Int.emod (convertTimestamp f.timestamp).2 4294967296) = none) :
    (get_current_location timeout env).1 = .ok (fixToLocation f env.now) ∧
    (fixToLocation f env.now).timestamp = env.now := by
  constructor
  · simp [get_current_location, hs, hm, hd, hw, if_neg ha]
  · simp [fixToLocation, h]

/-- Conversion of the out-of-range timestamp `10^30` seconds yields no
valid chrono instant: the seconds component exceeds chrono's maximum. -/
theorem overflow_timestamp_invalid :
    timestampOpt (convertTimestamp ((10 ^ 30 : ℤ) : ℚ)).1
        (Int.emod (convertTimestamp ((10 ^ 30 : ℤ) : ℚ)).2 4294967296) = none := by
  have hfl : ratFloor (((10 ^ 30 : ℤ) : ℚ)) = (10 ^ 30 : ℤ) := by
    rw [ratFloor_eq_floor]
    exact Int.floor_intCast _
  have hconv : convertTimestamp ((10 ^ 30 : ℤ) : ℚ) = ((10 ^ 30 : ℤ), 0) := by
    have hz : ((((10 ^ 30 : ℤ) : ℚ)) - ((10 ^ 30 : ℤ) : ℚ)) * 1000000000 = 0 := by
      ring_nf
    simp only [convertTimestamp, hfl, hz, ratTrunc, le_refl, if_pos]
    norm_num [ratFloor]
  rw [hconv]
  rw [timestampOpt, if_neg]
  intro hcl
  have := hcl.2.1
  revert this
  decide

/-- Witness for C10: a delivered fix whose native timestamp is `10^30`
seconds still yields a successful request, with the wall-clock time
`now = 99` as the returned timestamp. -/
theorem invalid_instant_substitutes_now_witness :
    (get_current_location 5
        ⟨true, 0, true, true, .fixArrived ⟨1, 2, ⟨false, 3⟩, ((10 ^ 30 : ℤ) : ℚ)⟩, 99⟩).1
      = .ok (fixToLocation ⟨1, 2, ⟨false, 3⟩, ((10 ^ 30 : ℤ) : ℚ)⟩ 99) ∧
    (fixToLocation ⟨1, 2, ⟨false, 3⟩, ((10 ^ 30 : ℤ) : ℚ)⟩ 99).timestamp = 99 :=
  invalid_instant_substitutes_now ⟨1, 2, ⟨false, 3⟩, ((10 ^ 30 : ℤ) : ℚ)⟩ 5
    ⟨true, 0, true, true, .fixArrived ⟨1, 2, ⟨false, 3⟩, ((10 ^ 30 : ℤ) : ℚ)⟩, 99⟩
    rfl (by decide) rfl rfl rfl overflow_timestamp_invalid

/-- Claim C8 counterexample: a request whose authorization status is
denied (2) but whose location service is also disabled returns
`Failed("Location services disabled")`, not `AuthorizationDenied` — the
service-enabled check runs first. -/
theorem denied_without_service_cex :
    (⟨false, 2, true, true, .deadline, 0⟩ : BridgeEnv).authStatus = 2 ∧
    (get_current_location 5 ⟨false, 2, true, true, .deadline, 0⟩).1
      = .error (.Failed "Location services disabled") ∧
    (get_current_location 5 ⟨false, 2, true, true, .deadline, 0⟩).1
      ≠ .error .AuthorizationDenied := by
  refine ⟨rfl, rfl, ?_⟩
  intro h
  have h2 := Except.error.inj h
  exact CoreLocationError.noConfusion h2

/-- Claim C8 as amended: when the location service is enabled and the
authorization status is denied (2) or restricted (1), the bridge returns
`AuthorizationDenied` with an empty effect trace — before any manager or
delegate is allocated and without starting the update stream. -/
theorem auth_denied_or_restricted_immediate (timeout : ℚ) (env : BridgeEnv)
    (hs : env.servicesEnabled = true)
    (ha : env.authStatus = 2 ∨ env.authStatus = 1) :
    get_current_location timeout env = (.error .AuthorizationDenied, []) := by
  simp [get_current_location, hs, ha]

/-- Witness for C8's amended theorem, with restricted status (1). -/
theorem auth_denied_or_restricted_immediate_witness :
    get_current_location 5 ⟨true, 1, true, true, .deadline, 0⟩
      = (.error .AuthorizationDenied, []) :=
  auth_denied_or_restricted_immediate 5 ⟨true, 1, true, true, .deadline, 0⟩
    rfl (Or.inr rfl)
